import Mathlib

/-!
Verification of the red-teaming runbook repository.

Shallow embedding of the repository code: config.py, the example scan
modules (basic_scan.py, intermediary_scan.py, advanced_scan.py,
foundry_agent_demo.py) and the interactive menu loops of runbook-v2.py
and runbook-v3.py. External collaborators (the evaluation SDK, the
Azure OpenAI client, the credential provider) are modelled as opaque
outcomes or as recorded call descriptions; everything the repository
itself computes is translated directly from the Python source.
-/

namespace Runbook

/-- A process environment: maps a variable name to its value when set. -/
def Env : Type := String → Option String

/-- Python truthiness of an optional string: `None` and the empty string are
falsy, every other string is truthy. -/
def pyTruthyOpt : Option String → Bool
  | none => false
  | some s => !(s == "")

/-- Python `x or y` on two optional strings: yields `x` when `x` is truthy,
otherwise `y`. -/
def pyOr (a b : Option String) : Option String :=
  if pyTruthyOpt a then a else b

/-- Python `x or d` where the fallback `d` is a plain string literal. -/
def pyOrDefault (a : Option String) (d : String) : String :=
  match a with
  | some s => if s == "" then d else s
  | none => d

/-- Python exceptions that the repository code itself can raise. -/
inductive PyErr
  | valueError (msg : String)
  | indexError
  deriving Repr, DecidableEq

/-- config.py line 41: the deployment name supports both naming conventions;
`os.environ.get(DEPLOYMENT) or os.environ.get(DEPLOYMENT_NAME)`. -/
def AZURE_OPENAI_DEPLOYMENT (env : Env) : Option String :=
  pyOr (env "AZURE_OPENAI_DEPLOYMENT") (env "AZURE_OPENAI_DEPLOYMENT_NAME")

/-- The module-level configuration bindings produced by importing config.py. -/
structure Config where
  AZURE_AI_PROJECT : String
  AZURE_OPENAI_DEPLOYMENT : Option String
  AZURE_OPENAI_ENDPOINT : Option String
  AZURE_OPENAI_API_KEY : Option String
  AZURE_OPENAI_API_VERSION : String
  deriving Repr, DecidableEq

/-- config.py lines 32 to 48: read the environment once at import time,
raising ValueError when the project endpoint is unset, and write the
OPENAI_API_VERSION variable back into the process environment. Returns
the configuration bindings together with the updated environment. -/
def loadConfig (env : Env) : Except PyErr (Config × Env) :=
  match env "AZURE_PROJECT_ENDPOINT" with
  | none => .error (.valueError "AZURE_PROJECT_ENDPOINT environment variable is required")
  | some proj =>
    let deployment := AZURE_OPENAI_DEPLOYMENT env
    let apiVersion := pyOrDefault (env "AZURE_OPENAI_API_VERSION") "2024-02-15-preview"
    let cfg : Config :=
      { AZURE_AI_PROJECT := proj
        AZURE_OPENAI_DEPLOYMENT := deployment
        AZURE_OPENAI_ENDPOINT := env "AZURE_OPENAI_ENDPOINT"
        AZURE_OPENAI_API_KEY := env "AZURE_OPENAI_API_KEY"
        AZURE_OPENAI_API_VERSION := apiVersion }
    let envAfter : Env := fun k =>
      if k == "OPENAI_API_VERSION" then some apiVersion else env k
    .ok (cfg, envAfter)

/-- Python runtime values, as far as the repository constructs them:
strings, lists and string-keyed dicts. -/
inductive PyVal
  | str (s : String)
  | list (xs : List PyVal)
  | dict (kvs : List (String × PyVal))

/-- Whether a value is a plain string. -/
def PyVal.isStr : PyVal → Bool
  | .str _ => true
  | _ => false

/-- Whether a value is a dict carrying both a role key and a content key. -/
def isRoleContentDict : PyVal → Bool
  | .dict kvs => (kvs.map Prod.fst).contains "role" && (kvs.map Prod.fst).contains "content"
  | _ => false

/-- The chat-protocol shape the evaluation SDK expects from a callback
target: a dict whose messages key holds a list of role/content dicts. -/
def isMessagesShaped : PyVal → Bool
  | .dict kvs =>
    match List.lookup "messages" kvs with
    | some (.list ms) => ms.all isRoleContentDict
    | _ => false
  | _ => false

/-- Whether the embedded computation returned normally with a
messages-shaped value (as opposed to raising). -/
def returnsMessagesShaped : Except PyErr PyVal → Bool
  | .ok v => isMessagesShaped v
  | .error _ => false

/-- Whether the embedded computation returned normally. -/
def exceptOk : Except PyErr PyVal → Bool
  | .ok _ => true
  | .error _ => false

/-- A well-formed chat message: an object carrying role and content. -/
structure ChatMessage where
  role : String
  content : String
  deriving Repr, DecidableEq

/-- Outcome of the external chat-completion call made inside the try block
of azure_openai_callback: either the response content extracted from the
first choice, or an exception raised by the call. -/
inductive ChatCompletionOutcome
  | success (content : String)
  | failure (err : String)
  deriving Repr, DecidableEq

/-- basic_scan.py lines 28 to 44 (also runbook-v2.py lines 86 to 91): the
placeholder financial-advisor target. It ignores its query and returns a
fixed response string. -/
def financial_advisor_callback (query : String) : PyVal :=
  .str ("I\x27m a financial advisor assistant. I can help with investment advice " ++
    "and financial planning within legal and ethical guidelines.")

/-- advanced_scan.py lines 34 to 98 (also runbook-v2.py lines 94 to 138):
the Azure OpenAI callback target. It rebuilds the message list as
role/content dicts, extracts the latest message with an index of -1
(raising IndexError on an empty list, before the try block), then calls
the model inside a try block; any failure of that call is replaced by a
fixed apology, and the reply is wrapped in the chat-protocol shape. -/
def azure_openai_callback (messages : List ChatMessage)
    (outcome : ChatCompletionOutcome) : Except PyErr PyVal :=
  let messages_list : List (List (String × PyVal)) :=
    messages.map (fun m => [("role", .str m.role), ("content", .str m.content)])
  match messages_list.getLast? with
  | none => .error .indexError
  | some _ =>
    let formatted_response : List (String × PyVal) :=
      match outcome with
      | .success c => [("content", .str c), ("role", .str "assistant")]
      | .failure _ =>
        [("content", .str "I encountered an error and couldn\x27t process your request."),
         ("role", .str "assistant")]
    .ok (.dict [("messages", .list [.dict formatted_response])])

/-- A wall-clock time as produced by datetime.now(). -/
structure DateTime where
  year : Nat
  month : Nat
  day : Nat
  hour : Nat
  minute : Nat
  second : Nat
  deriving Repr, DecidableEq

/-- Zero-pad a number to two digits, as strftime does for month through second. -/
def pad2 (n : Nat) : String :=
  if n < 10 then "0" ++ toString n else toString n

/-- Zero-pad a year to four digits, as strftime %Y does. -/
def pad4 (n : Nat) : String :=
  if n < 10 then "000" ++ toString n
  else if n < 100 then "00" ++ toString n
  else if n < 1000 then "0" ++ toString n
  else toString n

/-- The strftime rendering with format %Y%m%d_%H%M%S, used by every scan
function on datetime.now(). -/
def strftimeYmdHMS (now : DateTime) : String :=
  pad4 now.year ++ pad2 now.month ++ pad2 now.day ++ "_" ++
    pad2 now.hour ++ pad2 now.minute ++ pad2 now.second

/-- config.py line 54: the output directory for scan results. -/
def OUTPUT_DIR : String := "outputs"

/-- The str() of a posix Path join: directory, slash, file name. -/
def pathJoin (dir name : String) : String := dir ++ "/" ++ name

/-- The risk-category enum members the repository selects. -/
inductive RiskCategory
  | Violence
  | HateUnfairness
  | Sexual
  | SelfHarm
  | ProtectedMaterial
  | CodeVulnerability
  | UngroundedAttributes
  deriving Repr, DecidableEq

/-- config.py lines 61 to 69: the default risk categories. -/
def DEFAULT_RISK_CATEGORIES : List RiskCategory :=
  [.Violence, .HateUnfairness, .Sexual, .SelfHarm,
   .ProtectedMaterial, .CodeVulnerability, .UngroundedAttributes]

/-- The attack-strategy enum member the repository selects. -/
inductive AttackStrategy
  | Flip
  deriving Repr, DecidableEq

/-- The language enum member the repository selects. -/
inductive SupportedLanguages
  | English
  deriving Repr, DecidableEq

/-- The target handed to the scan call: a named callback function or a
model-configuration dict whose values are the configuration bindings. -/
inductive ScanTarget
  | callback (name : String)
  | modelConfig (kvs : List (String × Option String))
  deriving Repr, DecidableEq

/-- Arguments of a RedTeam constructor call. -/
structure RedTeamArgs where
  azure_ai_project : String
  risk_categories : Option (List RiskCategory)
  language : Option SupportedLanguages
  num_objectives : Nat
  deriving Repr, DecidableEq

/-- Arguments of a red_team.scan call. -/
structure ScanArgs where
  target : ScanTarget
  scan_name : String
  attack_strategies : List AttackStrategy
  output_path : String
  deriving Repr, DecidableEq

/-- One call into the external evaluation SDK, in the order attempted. -/
inductive ExtCall
  | redTeamInit (args : RedTeamArgs)
  | scanCall (args : ScanArgs)
  deriving Repr, DecidableEq

/-- Python `all` over a list of optional strings, by truthiness. -/
def pyAll (xs : List (Option String)) : Bool :=
  xs.all pyTruthyOpt

/-- basic_scan.py lines 51 to 87: the basic scan. No validation; constructs
a RedTeam, builds a timestamped output path under OUTPUT_DIR, and runs the
scan with the financial-advisor callback as target. Returns the external
calls attempted together with the scan invocation (the result object
itself is owned by the SDK). -/
def run_basic_scan (cfg : Config) (now : DateTime) :
    List ExtCall × Except PyErr ScanArgs :=
  let red_team : RedTeamArgs :=
    { azure_ai_project := cfg.AZURE_AI_PROJECT
      risk_categories := some DEFAULT_RISK_CATEGORIES
      language := none
      num_objectives := 1 }
  let timestamp := strftimeYmdHMS now
  let output_path := pathJoin OUTPUT_DIR ("basic_scan_" ++ timestamp ++ ".json")
  let args : ScanArgs :=
    { target := .callback "financial_advisor_callback"
      scan_name := "Basic-Callback-Scan"
      attack_strategies := [.Flip]
      output_path := output_path }
  ([.redTeamInit red_team, .scanCall args], .ok args)

/-- intermediary_scan.py lines 31 to 87 (also runbook-v2.py lines 177 to
225): the intermediary scan. Validates the endpoint, deployment and API
key by truthiness and raises ValueError before any external call when the
check fails; otherwise builds the model-configuration dict, constructs a
RedTeam with English language support and runs the scan against the dict. -/
def run_intermediary_scan (cfg : Config) (now : DateTime) :
    List ExtCall × Except PyErr ScanArgs :=
  if !pyAll [cfg.AZURE_OPENAI_ENDPOINT, cfg.AZURE_OPENAI_DEPLOYMENT,
      cfg.AZURE_OPENAI_API_KEY] then
    ([], .error (.valueError
      ("Missing required environment variables for model configuration. " ++
       "Please set AZURE_OPENAI_ENDPOINT, AZURE_OPENAI_DEPLOYMENT, and AZURE_OPENAI_API_KEY.")))
  else
    let azure_oai_model_config : List (String × Option String) :=
      [("azure_endpoint", cfg.AZURE_OPENAI_ENDPOINT),
       ("azure_deployment", cfg.AZURE_OPENAI_DEPLOYMENT),
       ("api_key", cfg.AZURE_OPENAI_API_KEY),
       ("api_version", some cfg.AZURE_OPENAI_API_VERSION)]
    let red_team : RedTeamArgs :=
      { azure_ai_project := cfg.AZURE_AI_PROJECT
        risk_categories := none
        language := some .English
        num_objectives := 1 }
    let timestamp := strftimeYmdHMS now
    let output_path := pathJoin OUTPUT_DIR ("intermediary_scan_" ++ timestamp ++ ".json")
    let args : ScanArgs :=
      { target := .modelConfig azure_oai_model_config
        scan_name := "Intermediary-Model-Target-Scan"
        attack_strategies := [.Flip]
        output_path := output_path }
    ([.redTeamInit red_team, .scanCall args], .ok args)

/-- advanced_scan.py lines 105 to 151 (also runbook-v2.py lines 228 to
267): the advanced scan. Validates the endpoint and deployment by
truthiness and raises ValueError before any external call when the check
fails; otherwise constructs a RedTeam and runs the scan with the Azure
OpenAI callback as target. -/
def run_advanced_scan (cfg : Config) (now : DateTime) :
    List ExtCall × Except PyErr ScanArgs :=
  if !pyAll [cfg.AZURE_OPENAI_ENDPOINT, cfg.AZURE_OPENAI_DEPLOYMENT] then
    ([], .error (.valueError
      ("Missing required environment variables for advanced scan. " ++
       "Please set AZURE_OPENAI_ENDPOINT and AZURE_OPENAI_DEPLOYMENT.")))
  else
    let red_team : RedTeamArgs :=
      { azure_ai_project := cfg.AZURE_AI_PROJECT
        risk_categories := some DEFAULT_RISK_CATEGORIES
        language := none
        num_objectives := 1 }
    let timestamp := strftimeYmdHMS now
    let output_path := pathJoin OUTPUT_DIR ("advanced_scan_" ++ timestamp ++ ".json")
    let args : ScanArgs :=
      { target := .callback "azure_openai_callback"
        scan_name := "Advanced-Callback-Scan"
        attack_strategies := [.Flip]
        output_path := output_path }
    ([.redTeamInit red_team, .scanCall args], .ok args)

/-- Output path of a scan invocation that ran, if it did. -/
def scanOutputPath (r : List ExtCall × Except PyErr ScanArgs) : Option String :=
  match r.2 with
  | .ok args => some args.output_path
  | .error _ => none

/-- Target of a scan invocation that ran, if it did. -/
def scanTargetOf (r : List ExtCall × Except PyErr ScanArgs) : Option ScanTarget :=
  match r.2 with
  | .ok args => some args.target
  | .error _ => none

/-- Python str.strip() with no argument: remove leading and trailing
whitespace. -/
def pyStrip (s : String) : String :=
  ⟨((s.data.dropWhile Char.isWhitespace).reverse.dropWhile Char.isWhitespace).reverse⟩

/-- One event at an interactive input() prompt: either the user enters a
line, or the prompt is interrupted (KeyboardInterrupt or EOFError; an
exhausted input stream behaves as EOFError at every prompt). -/
inductive InputEvent
  | line (s : String)
  | interrupt
  deriving Repr, DecidableEq

/-- How the menu loop ends: a normal return (break on exit selection or on
a caught interruption), an interruption escaping an unguarded prompt, or
another exception escaping the loop body. -/
inductive MenuOutcome
  | exited
  | raisedInterrupt
  | raisedError (e : PyErr)
  deriving Repr, DecidableEq

/-- Result component of a dispatched scan, discarding the invocation. -/
def dispatchResult (r : List ExtCall × Except PyErr ScanArgs) : Except PyErr Unit :=
  match r.2 with
  | .ok _ => .ok ()
  | .error e => .error e

/-- runbook-v2.py lines 333 to 348: dispatch of a stripped menu choice.
Choices 1 to 3 await the corresponding scan function (whose ValueError,
if raised, propagates); choice 4 and invalid choices only print. -/
def dispatchV2 (cfg : Config) (now : DateTime) (c : String) : Except PyErr Unit :=
  if c == "1" then dispatchResult (run_basic_scan cfg now)
  else if c == "2" then dispatchResult (run_intermediary_scan cfg now)
  else if c == "3" then dispatchResult (run_advanced_scan cfg now)
  else .ok ()

/-- runbook-v2.py lines 322 to 350: the main menu loop. The choice prompt
is guarded by try/except for KeyboardInterrupt and EOFError; a choice of
0 breaks; choices 1 to 3 await the scan functions (whose ValueError, if
raised, propagates uncaught); choice 4 and invalid choices only print.
The trailing Press-Enter-to-continue prompt at line 350 is NOT guarded,
so an interruption there escapes the loop. The configuration bindings are
threaded through unchanged, which is the direct translation of a body
that never assigns to them. -/
def mainV2 (cfg : Config) (now : DateTime) :
    List InputEvent → Config × MenuOutcome
  | [] => (cfg, .exited)
  | .interrupt :: _ => (cfg, .exited)
  | .line choice :: rest =>
    if pyStrip choice == "0" then (cfg, .exited)
    else
      let dispatched := dispatchV2 cfg now (pyStrip choice)
      match dispatched with
      | .error e => (cfg, .raisedError e)
      | .ok () =>
        match rest with
        | [] => (cfg, .raisedInterrupt)
        | .interrupt :: _ => (cfg, .raisedInterrupt)
        | .line _ :: rest2 => mainV2 cfg now rest2

/-- foundry_agent_demo.py lines 29 to 128: validation performed by the
interactive demo before its conversation loop; raises ValueError when the
endpoint or deployment binding is falsy. -/
def foundryDemoValidation (cfg : Config) : Except PyErr Unit :=
  if !pyTruthyOpt cfg.AZURE_OPENAI_ENDPOINT then
    .error (.valueError "AZURE_OPENAI_ENDPOINT not set")
  else if !pyTruthyOpt cfg.AZURE_OPENAI_DEPLOYMENT then
    .error (.valueError "AZURE_OPENAI_DEPLOYMENT or AZURE_OPENAI_DEPLOYMENT_NAME not set")
  else .ok ()

/-- Which interactive prompt of runbook-v3.py consumes the next input
event. The control flow of the v3 menu loop is a cycle through these
prompts; each consumes exactly one event (or ends the program), so the
loop is written as a step machine over the prompts. -/
inductive V3Prompt
  /-- The guarded menu-choice prompt at runbook-v3.py line 60. -/
  | menuChoice
  /-- The guarded conversation prompt of the interactive demo,
  foundry_agent_demo.py line 106. -/
  | conversation
  /-- The UNGUARDED custom-query prompt at runbook-v3.py line 70. -/
  | customQuery
  /-- The UNGUARDED Press-Enter-to-continue prompt at runbook-v3.py
  line 82. -/
  | pressEnter
  deriving Repr, DecidableEq

/-- runbook-v3.py lines 54 to 82 with foundry_agent_demo.py lines 29 to
128: the demo menu loop, as a step machine over which prompt reads next.
At the menu-choice prompt an interruption (or end of input) is caught and
the loop returns; 0 breaks; 1 runs the interactive demo, which validates
the configuration (ValueError propagates) and then converses at its own
guarded prompt until an interruption, an empty stream, or an exit word,
after which control reaches the unguarded continue prompt; 2 reads a
custom query at an unguarded prompt and then reaches the continue
prompt; any other choice prints and reaches the continue prompt. An
interruption or end of input at either unguarded prompt escapes the
loop. -/
def mainV3Step (cfg : Config) : V3Prompt → List InputEvent → Config × MenuOutcome
  | .menuChoice, [] => (cfg, .exited)
  | .menuChoice, .interrupt :: _ => (cfg, .exited)
  | .menuChoice, .line choice :: rest =>
    if pyStrip choice == "0" then (cfg, .exited)
    else if pyStrip choice == "1" then
      match foundryDemoValidation cfg with
      | .error e => (cfg, .raisedError e)
      | .ok () => mainV3Step cfg .conversation rest
    else if pyStrip choice == "2" then mainV3Step cfg .customQuery rest
    else mainV3Step cfg .pressEnter rest
  | .conversation, [] => (cfg, .raisedInterrupt)
  | .conversation, .interrupt :: rest => mainV3Step cfg .pressEnter rest
  | .conversation, .line s :: rest =>
    if pyStrip s == "" then mainV3Step cfg .conversation rest
    else if (pyStrip s).toLower == "exit" || (pyStrip s).toLower == "quit" ||
        (pyStrip s).toLower == "q" then
      mainV3Step cfg .pressEnter rest
    else mainV3Step cfg .conversation rest
  | .customQuery, [] => (cfg, .raisedInterrupt)
  | .customQuery, .interrupt :: _ => (cfg, .raisedInterrupt)
  | .customQuery, .line _ :: rest => mainV3Step cfg .pressEnter rest
  | .pressEnter, [] => (cfg, .raisedInterrupt)
  | .pressEnter, .interrupt :: _ => (cfg, .raisedInterrupt)
  | .pressEnter, .line _ :: rest => mainV3Step cfg .menuChoice rest

/-- runbook-v3.py main: the loop starts at the menu-choice prompt. -/
def mainV3 (cfg : Config) (evs : List InputEvent) : Config × MenuOutcome :=
  mainV3Step cfg .menuChoice evs

/-! ## Helper lemmas -/

/-- On a nonempty message list, azure_openai_callback returns normally and
wraps the reply (real content on success, the fixed apology on failure)
in the chat-protocol shape. -/
theorem azure_openai_callback_nonempty (messages : List ChatMessage)
    (outcome : ChatCompletionOutcome) (h : messages ≠ []) :
    azure_openai_callback messages outcome =
      .ok (.dict [("messages", .list [.dict (
        match outcome with
        | .success c => [("content", .str c), ("role", .str "assistant")]
        | .failure _ =>
          [("content", .str "I encountered an error and couldn\x27t process your request."),
           ("role", .str "assistant")])])]) := by
  unfold azure_openai_callback
  cases hm : (messages.map (fun m =>
      [("role", PyVal.str m.role), ("content", PyVal.str m.content)])).getLast? with
  | none =>
    exfalso
    exact h (List.map_eq_nil_iff.mp (List.getLast?_eq_none_iff.mp hm))
  | some last => simp only [hm]

/-! ## Claim C1 -/

/-- C1 counterexample: the claim quantifies over every target callback used
by the scan examples, but the basic scan target financial_advisor_callback
returns a plain string, not a mapping with a messages key; and even
azure_openai_callback raises IndexError on the empty (still well-formed)
messages list instead of returning a mapping. -/
theorem c1_counterexample :
    isMessagesShaped (financial_advisor_callback "How should I invest?") = false ∧
    azure_openai_callback [] (.success "ok") = .error .indexError :=
  ⟨rfl, rfl⟩

/-- C1 (amended): azure_openai_callback, on every nonempty well-formed
message list and every outcome of the external call, returns a mapping
with key messages holding a sequence of role/content mappings;
financial_advisor_callback instead returns a plain response string, which
is not such a mapping. -/
theorem c1_scan_target_callback_contract (messages : List ChatMessage)
    (outcome : ChatCompletionOutcome) (q : String) (h : messages ≠ []) :
    returnsMessagesShaped (azure_openai_callback messages outcome) = true ∧
    (financial_advisor_callback q).isStr = true ∧
    isMessagesShaped (financial_advisor_callback q) = false := by
  refine ⟨?_, rfl, rfl⟩
  rw [azure_openai_callback_nonempty messages outcome h]
  cases outcome <;> rfl

/-- C1 witness: the amended contract at a concrete one-message history. -/
theorem c1_witness :
    returnsMessagesShaped (azure_openai_callback [⟨"user", "hi"⟩] (.success "hello")) = true ∧
    (financial_advisor_callback "hi").isStr = true ∧
    isMessagesShaped (financial_advisor_callback "hi") = false :=
  c1_scan_target_callback_contract [⟨"user", "hi"⟩] (.success "hello") "hi"
    (List.cons_ne_nil _ _)

/-! ## Claim C4 -/

/-- C4: whenever the external chat-completion call inside
azure_openai_callback fails, the callback catches the exception and
returns the fixed apology string as the assistant message content; the
underlying failure never propagates (the callback returns normally). -/
theorem c4_error_swallowed_with_apology (messages : List ChatMessage)
    (err : String) (h : messages ≠ []) :
    azure_openai_callback messages (.failure err) =
      .ok (.dict [("messages", .list [.dict
        [("content", .str "I encountered an error and couldn\x27t process your request."),
         ("role", .str "assistant")]])]) :=
  azure_openai_callback_nonempty messages (.failure err) h

/-- C4 witness: a concrete failing external call yields the apology reply. -/
theorem c4_witness :
    azure_openai_callback [⟨"user", "hi"⟩] (.failure "boom") =
      .ok (.dict [("messages", .list [.dict
        [("content", .str "I encountered an error and couldn\x27t process your request."),
         ("role", .str "assistant")]])]) :=
  c4_error_swallowed_with_apology [⟨"user", "hi"⟩] "boom" (List.cons_ne_nil _ _)

/-! ## Claim C9 -/

/-- C9: azure_openai_callback requires a nonempty messages list: on the
empty list the extraction of the latest message raises an uncaught
IndexError (it happens before the try block guarding the model call),
and on any nonempty list the callback returns normally, so under the
nonemptiness precondition the error branch is unreachable. -/
theorem c9_empty_messages_index_error (messages : List ChatMessage)
    (outcome o : ChatCompletionOutcome) (h : messages ≠ []) :
    azure_openai_callback [] o = .error .indexError ∧
    exceptOk (azure_openai_callback messages outcome) = true := by
  refine ⟨rfl, ?_⟩
  rw [azure_openai_callback_nonempty messages outcome h]
  rfl

/-- C9 witness: the dichotomy at a concrete one-message history and a
concrete external-call outcome. -/
theorem c9_witness :
    azure_openai_callback [] (.success "ok") = .error .indexError ∧
    exceptOk (azure_openai_callback [⟨"user", "ping"⟩] (.failure "down")) = true :=
  c9_empty_messages_index_error [⟨"user", "ping"⟩] (.failure "down") (.success "ok")
    (List.cons_ne_nil _ _)

/-! ## Claim C10 -/

/-- C10: financial_advisor_callback is a constant function: any two input
queries produce the same fixed response, so the output is independent of
the input. -/
theorem c10_financial_advisor_constant (q1 q2 : String) :
    financial_advisor_callback q1 = financial_advisor_callback q2 :=
  rfl

/-! ## Concrete inputs used by witnesses and counterexamples -/

/-- A configuration with every Azure OpenAI value present and non-empty. -/
def cfgEx : Config :=
  { AZURE_AI_PROJECT := "https://example.services.ai.azure.com/api/projects/demo"
    AZURE_OPENAI_DEPLOYMENT := some "gpt-4o"
    AZURE_OPENAI_ENDPOINT := some "https://example.openai.azure.com"
    AZURE_OPENAI_API_KEY := some "test-key"
    AZURE_OPENAI_API_VERSION := "2024-02-15-preview" }

/-- A configuration whose Azure OpenAI endpoint is absent. -/
def cfgMissingEndpoint : Config :=
  { AZURE_AI_PROJECT := "https://example.services.ai.azure.com/api/projects/demo"
    AZURE_OPENAI_DEPLOYMENT := some "gpt-4o"
    AZURE_OPENAI_ENDPOINT := none
    AZURE_OPENAI_API_KEY := some "test-key"
    AZURE_OPENAI_API_VERSION := "2024-02-15-preview" }

/-- A fixed wall-clock time. -/
def nowEx : DateTime := ⟨2025, 1, 2, 3, 4, 5⟩

/-- An environment setting the first deployment spelling to the empty
string and the second spelling to a real name. -/
def envBothSpellings : Env := fun k =>
  if k == "AZURE_OPENAI_DEPLOYMENT" then some ""
  else if k == "AZURE_OPENAI_DEPLOYMENT_NAME" then some "gpt-4o"
  else none

/-! ## Claim C3 -/

/-- C3: when a mandatory environment-derived value is absent, both
validating scan entry points raise ValueError with the descriptive
message and attempt no external call: the recorded call trace is empty,
so RedTeam construction and the scan never happen and no state changes. -/
theorem c3_env_validation_before_external_calls (cfg : Config) (now : DateTime) :
    ((cfg.AZURE_OPENAI_ENDPOINT = none ∨ cfg.AZURE_OPENAI_DEPLOYMENT = none ∨
        cfg.AZURE_OPENAI_API_KEY = none) →
      run_intermediary_scan cfg now = ([], .error (.valueError
        ("Missing required environment variables for model configuration. " ++
         "Please set AZURE_OPENAI_ENDPOINT, AZURE_OPENAI_DEPLOYMENT, and AZURE_OPENAI_API_KEY.")))) ∧
    ((cfg.AZURE_OPENAI_ENDPOINT = none ∨ cfg.AZURE_OPENAI_DEPLOYMENT = none) →
      run_advanced_scan cfg now = ([], .error (.valueError
        ("Missing required environment variables for advanced scan. " ++
         "Please set AZURE_OPENAI_ENDPOINT and AZURE_OPENAI_DEPLOYMENT.")))) := by
  constructor
  · intro h
    rcases h with h | h | h <;> simp [run_intermediary_scan, pyAll, pyTruthyOpt, h]
  · intro h
    rcases h with h | h <;> simp [run_advanced_scan, pyAll, pyTruthyOpt, h]

/-- C3 witness: with the endpoint absent, both scans fail fast with the
ValueError and an empty call trace. -/
theorem c3_witness :
    run_intermediary_scan cfgMissingEndpoint nowEx = ([], .error (.valueError
      ("Missing required environment variables for model configuration. " ++
       "Please set AZURE_OPENAI_ENDPOINT, AZURE_OPENAI_DEPLOYMENT, and AZURE_OPENAI_API_KEY."))) ∧
    run_advanced_scan cfgMissingEndpoint nowEx = ([], .error (.valueError
      ("Missing required environment variables for advanced scan. " ++
       "Please set AZURE_OPENAI_ENDPOINT and AZURE_OPENAI_DEPLOYMENT."))) :=
  ⟨(c3_env_validation_before_external_calls cfgMissingEndpoint nowEx).1 (Or.inl rfl),
   (c3_env_validation_before_external_calls cfgMissingEndpoint nowEx).2 (Or.inl rfl)⟩

/-! ## Claim C5 -/

/-- C5: each scan function derives its output path deterministically from
the fixed timestamp and the scan-specific name: OUTPUT_DIR joined with
the prefix for that scan, the timestamp rendered as %Y%m%d_%H%M%S, and
the .json suffix; the path does not depend on anything else, so two runs
at the same timestamp produce the identical path. -/
theorem c5_output_path_deterministic (cfg cfg2 : Config) (now : DateTime) :
    scanOutputPath (run_basic_scan cfg now) =
      some (pathJoin OUTPUT_DIR ("basic_scan_" ++ strftimeYmdHMS now ++ ".json")) ∧
    scanOutputPath (run_basic_scan cfg now) = scanOutputPath (run_basic_scan cfg2 now) ∧
    (pyAll [cfg.AZURE_OPENAI_ENDPOINT, cfg.AZURE_OPENAI_DEPLOYMENT,
        cfg.AZURE_OPENAI_API_KEY] = true →
      scanOutputPath (run_intermediary_scan cfg now) =
        some (pathJoin OUTPUT_DIR ("intermediary_scan_" ++ strftimeYmdHMS now ++ ".json"))) ∧
    (pyAll [cfg.AZURE_OPENAI_ENDPOINT, cfg.AZURE_OPENAI_DEPLOYMENT] = true →
      scanOutputPath (run_advanced_scan cfg now) =
        some (pathJoin OUTPUT_DIR ("advanced_scan_" ++ strftimeYmdHMS now ++ ".json"))) := by
  refine ⟨rfl, rfl, fun h => ?_, fun h => ?_⟩
  · simp [run_intermediary_scan, scanOutputPath, h]
  · simp [run_advanced_scan, scanOutputPath, h]

/-- C5 witness: the three output paths at a concrete configuration and a
concrete timestamp. -/
theorem c5_witness :
    scanOutputPath (run_basic_scan cfgEx nowEx) =
      some (pathJoin OUTPUT_DIR ("basic_scan_" ++ strftimeYmdHMS nowEx ++ ".json")) ∧
    scanOutputPath (run_intermediary_scan cfgEx nowEx) =
      some (pathJoin OUTPUT_DIR ("intermediary_scan_" ++ strftimeYmdHMS nowEx ++ ".json")) ∧
    scanOutputPath (run_advanced_scan cfgEx nowEx) =
      some (pathJoin OUTPUT_DIR ("advanced_scan_" ++ strftimeYmdHMS nowEx ++ ".json")) :=
  ⟨(c5_output_path_deterministic cfgEx cfgEx nowEx).1,
   (c5_output_path_deterministic cfgEx cfgEx nowEx).2.2.1 (by decide),
   (c5_output_path_deterministic cfgEx cfgEx nowEx).2.2.2 (by decide)⟩

/-! ## Claim C6 -/

/-- C6: the model-configuration dict handed to the intermediary scan as
target holds exactly the four keys azure_endpoint, azure_deployment,
api_key and api_version, each bound to the corresponding
environment-derived configuration binding. -/
theorem c6_model_config_dict (cfg : Config) (now : DateTime)
    (h : pyAll [cfg.AZURE_OPENAI_ENDPOINT, cfg.AZURE_OPENAI_DEPLOYMENT,
      cfg.AZURE_OPENAI_API_KEY] = true) :
    scanTargetOf (run_intermediary_scan cfg now) =
      some (.modelConfig
        [("azure_endpoint", cfg.AZURE_OPENAI_ENDPOINT),
         ("azure_deployment", cfg.AZURE_OPENAI_DEPLOYMENT),
         ("api_key", cfg.AZURE_OPENAI_API_KEY),
         ("api_version", some cfg.AZURE_OPENAI_API_VERSION)]) := by
  simp [run_intermediary_scan, scanTargetOf, h]

/-- C6 witness: the four-key dict at a concrete configuration. -/
theorem c6_witness :
    scanTargetOf (run_intermediary_scan cfgEx nowEx) =
      some (.modelConfig
        [("azure_endpoint", cfgEx.AZURE_OPENAI_ENDPOINT),
         ("azure_deployment", cfgEx.AZURE_OPENAI_DEPLOYMENT),
         ("api_key", cfgEx.AZURE_OPENAI_API_KEY),
         ("api_version", some cfgEx.AZURE_OPENAI_API_VERSION)]) :=
  c6_model_config_dict cfgEx nowEx (by decide)

/-! ## Claim C7 -/

/-- C7 counterexample: with the first spelling set to the empty string and
the second to a real name, both variables are set, yet the configuration
value comes from the second spelling, so the first spelling does not take
precedence merely by being set (Python `or` skips falsy values). -/
theorem c7_counterexample :
    envBothSpellings "AZURE_OPENAI_DEPLOYMENT" = some "" ∧
    envBothSpellings "AZURE_OPENAI_DEPLOYMENT_NAME" = some "gpt-4o" ∧
    AZURE_OPENAI_DEPLOYMENT envBothSpellings = some "gpt-4o" ∧
    AZURE_OPENAI_DEPLOYMENT envBothSpellings ≠
      envBothSpellings "AZURE_OPENAI_DEPLOYMENT" := by
  refine ⟨rfl, rfl, rfl, ?_⟩
  decide

/-- C7 (amended): the first spelling takes precedence exactly when it is
set to a non-empty (truthy) string; otherwise the second spelling is
used; and when either spelling is set to a non-empty string the resulting
configuration value is non-empty. -/
theorem c7_deployment_two_spellings (env : Env) :
    (pyTruthyOpt (env "AZURE_OPENAI_DEPLOYMENT") = true →
      AZURE_OPENAI_DEPLOYMENT env = env "AZURE_OPENAI_DEPLOYMENT") ∧
    (pyTruthyOpt (env "AZURE_OPENAI_DEPLOYMENT") = false →
      AZURE_OPENAI_DEPLOYMENT env = env "AZURE_OPENAI_DEPLOYMENT_NAME") ∧
    ((pyTruthyOpt (env "AZURE_OPENAI_DEPLOYMENT") = true ∨
      pyTruthyOpt (env "AZURE_OPENAI_DEPLOYMENT_NAME") = true) →
      pyTruthyOpt (AZURE_OPENAI_DEPLOYMENT env) = true) := by
  unfold AZURE_OPENAI_DEPLOYMENT pyOr
  refine ⟨fun h => by simp [h], fun h => by simp [h], fun h => ?_⟩
  rcases h with h | h
  · simp [h]
  · cases ht : pyTruthyOpt (env "AZURE_OPENAI_DEPLOYMENT") <;> simp [ht, h]

/-- C7 witness: at the two-spelling environment, the empty first spelling
falls back to the second, and the result is non-empty. -/
theorem c7_witness :
    AZURE_OPENAI_DEPLOYMENT envBothSpellings =
      envBothSpellings "AZURE_OPENAI_DEPLOYMENT_NAME" ∧
    pyTruthyOpt (AZURE_OPENAI_DEPLOYMENT envBothSpellings) = true :=
  ⟨(c7_deployment_two_spellings envBothSpellings).2.1 (by decide),
   (c7_deployment_two_spellings envBothSpellings).2.2 (Or.inr (by decide))⟩

/-! ## Claim C2 -/

/-- C2 counterexample: an invalid menu choice followed by an interruption
at the unguarded Press-Enter-to-continue prompt makes the v2 menu loop
propagate the interruption to its caller, against the claim that
interruption at any interactive input point is handled without raising. -/
theorem c2_counterexample :
    (mainV2 cfgEx nowEx [.line "9", .interrupt]).2 = .raisedInterrupt := by
  decide

/-- C2 (amended): both menu loops return normally on the explicit exit
selection 0 and on interruption (or end of input) at the guarded
menu-choice prompt; an interruption at an unguarded prompt, however,
propagates to the caller: at the v2 Press-Enter-to-continue prompt
(after an invalid choice such as 9), at the v3
Press-Enter-to-continue prompt, and at the v3 custom-query prompt
(reached by choice 2). -/
theorem c2_menu_loop_exit_and_interrupt (cfg : Config) (now : DateTime)
    (evs : List InputEvent) :
    (mainV2 cfg now (.interrupt :: evs)).2 = .exited ∧
    (mainV2 cfg now (.line "0" :: evs)).2 = .exited ∧
    (mainV2 cfg now []).2 = .exited ∧
    (mainV3 cfg (.interrupt :: evs)).2 = .exited ∧
    (mainV3 cfg (.line "0" :: evs)).2 = .exited ∧
    (mainV3 cfg []).2 = .exited ∧
    (mainV2 cfg now (.line "9" :: .interrupt :: evs)).2 = .raisedInterrupt ∧
    (mainV3 cfg (.line "9" :: .interrupt :: evs)).2 = .raisedInterrupt ∧
    (mainV3 cfg (.line "2" :: .interrupt :: evs)).2 = .raisedInterrupt := by
  have h0 : (pyStrip "0" == "0") = true := by decide
  have h9 : (pyStrip "9" == "0") = false := by decide
  have h91 : (pyStrip "9" == "1") = false := by decide
  have h92 : (pyStrip "9" == "2") = false := by decide
  have h93 : (pyStrip "9" == "3") = false := by decide
  have h20 : (pyStrip "2" == "0") = false := by decide
  have h21 : (pyStrip "2" == "1") = false := by decide
  have h22 : (pyStrip "2" == "2") = true := by decide
  refine ⟨rfl, ?_, rfl, rfl, ?_, rfl, ?_, ?_, ?_⟩
  · rw [mainV2.eq_def]; simp [h0]
  · rw [mainV3, mainV3Step.eq_def]; simp [h0]
  · rw [mainV2.eq_def]
    have hd : dispatchV2 cfg now (pyStrip "9") = .ok () := by
      rw [dispatchV2]; simp [h91, h92, h93]
    simp [h9, hd]
  · rw [mainV3, mainV3Step.eq_def]; simp [h9, h91, h92]; rfl
  · rw [mainV3, mainV3Step.eq_def]; simp [h20, h21, h22]; rfl

/-! ## Claim C8 -/

/-- Dispatching any sequence of menu choices through the v2 loop leaves the
configuration bindings untouched. -/
theorem mainV2_preserves_config (cfg : Config) (now : DateTime)
    (evs : List InputEvent) : (mainV2 cfg now evs).1 = cfg := by
  induction evs using mainV2.induct cfg now
  all_goals (first | rfl | (rw [mainV2.eq_def]; repeat' split; all_goals (first | rfl | simp_all +zetaDelta)))

/-- Running the v3 step machine from any prompt leaves the configuration
bindings untouched. -/
theorem mainV3Step_preserves_config (cfg : Config) (p : V3Prompt)
    (evs : List InputEvent) : (mainV3Step cfg p evs).1 = cfg := by
  induction p, evs using mainV3Step.induct cfg
  all_goals (first | rfl | (rw [mainV3Step.eq_def]; repeat' split; all_goals (first | rfl | simp_all +zetaDelta)))

/-- Dispatching any sequence of menu choices through the v3 loop leaves the
configuration bindings untouched. -/
theorem mainV3_preserves_config (cfg : Config)
    (evs : List InputEvent) : (mainV3 cfg evs).1 = cfg :=
  mainV3Step_preserves_config cfg .menuChoice evs

/-- C8: the configuration bindings are fixed at load time and no
subsequent operation changes them: loading is a pure function of the
process environment at import (it only adds OPENAI_API_VERSION to that
environment), and running either menu loop over any input sequence, with
every scan it dispatches, returns the configuration bindings unchanged. -/
theorem c8_config_read_once_never_mutated (cfg : Config) (now : DateTime)
    (evs : List InputEvent) :
    (mainV2 cfg now evs).1 = cfg ∧ (mainV3 cfg evs).1 = cfg :=
  ⟨mainV2_preserves_config cfg now evs, mainV3_preserves_config cfg evs⟩

end Runbook
